import Mathlib

/-!
Shallow embedding of the chat-session lifecycle and message-persistence
logic of the text-wise-query client, together with proofs about it.

The embedded functions follow the TypeScript source:
* `src/utils/chatHistoryUtils.ts` : `deleteChatSession`, `saveChatMessages`,
  `getChatMessages` (the variant keyed on `session_id`);
* `src/utils/chatUtils.ts` : `generateResponse` (the variant returning a
  `ChatMessage` record);
* `src/pages/Index.tsx` : the default-title computation in `handleSendMessage`.

The hosted database is modelled as an explicit `Store` value holding the
`chat_sessions` and `chat_messages` tables.  Each database call either
succeeds or fails; which one happens is given by an explicit environment
record, and a failed call leaves the table unchanged.  Every store
function additionally returns the list of database operations it issued,
so that ordering claims ("X happens before Y") can be stated.
-/

namespace TextWiseQuery

/-- Sender of a chat message: the TypeScript union type `"user" | "bot"`. -/
inductive Sender where
  | user
  | bot
deriving DecidableEq

/-- Citation metadata attached to a bot message, from the `ChatMessage`
interface in `chatUtils.ts`: `sourceDocuments` is required there, the other
three fields are optional. -/
structure SourceInfo where
  sourceDocuments : List String
  pageNumber : Option String
  sectionInfo : Option String
  paragraphInfo : Option String
deriving DecidableEq

/-- In-memory chat message, from the `ChatMessage` interface in
`chatUtils.ts`.  Timestamps are milliseconds since the epoch. -/
structure ChatMessage where
  id : String
  text : String
  sender : Sender
  timestamp : Nat
  sourceInfo : Option SourceInfo
deriving DecidableEq

/-- Stored JSON shape of the `source_info` column.  Every field is optional
here because the reading code in `getChatMessages` defends against each
field being absent from the stored object. -/
structure StoredSourceInfo where
  sourceDocuments : Option (List String)
  pageNumber : Option String
  sectionInfo : Option String
  paragraphInfo : Option String
deriving DecidableEq

/-- Row of the `chat_messages` table. -/
structure MessageRow where
  id : String
  session_id : String
  text : String
  sender : Sender
  timestamp : Nat
  source_info : Option StoredSourceInfo
deriving DecidableEq

/-- Row of the `chat_sessions` table. -/
structure SessionRow where
  id : String
  title : String
  document_ids : List String
  created_at : Nat
  updated_at : Nat
deriving DecidableEq

/-- The two tables of the hosted database that the chat-history code
touches. -/
structure Store where
  sessions : List SessionRow
  messages : List MessageRow
deriving DecidableEq

/-- Database operations issued by the chat-history functions, recorded in
the order in which the source awaits them. -/
inductive DbOp where
  | updateSessionTimestamp (sessionId : String) (now : Nat)
  | deleteMessages (sessionId : String)
  | insertMessages (rows : List MessageRow)
  | deleteSession (id : String)
deriving DecidableEq

/-- Success or failure of each database call made by `saveChatMessages`.
The source awaits the update and the delete without checking their errors,
so a failure there does not stop the function. -/
structure SaveEnv where
  updateOk : Bool
  deleteOk : Bool
  insertOk : Bool
deriving DecidableEq

/-- Success or failure of each database call made by `deleteChatSession`. -/
structure DeleteEnv where
  messagesOk : Bool
  sessionOk : Bool
deriving DecidableEq

/-- Success or failure of the select made by `getChatMessages`. -/
structure LoadEnv where
  selectOk : Bool
deriving DecidableEq

/-- Result of a store-mutating call: the reported boolean, the store after
the call, and the database operations issued. -/
structure StoreResult where
  ok : Bool
  store : Store
  trace : List DbOp
deriving DecidableEq

/-- Mapping from an in-memory message to a `chat_messages` row, from the
`messagesToInsert` construction in `saveChatMessages`: the `source_info`
object copies the four citation fields, absent optional fields staying
absent, and a missing `sourceInfo` is stored as null. -/
def chatMessageToRow (sessionId : String) (msg : ChatMessage) : MessageRow :=
  { id := msg.id
    session_id := sessionId
    text := msg.text
    sender := msg.sender
    timestamp := msg.timestamp
    source_info := msg.sourceInfo.map fun si =>
      { sourceDocuments := some si.sourceDocuments
        pageNumber := si.pageNumber
        sectionInfo := si.sectionInfo
        paragraphInfo := si.paragraphInfo } }

/-- Mapping from a stored row back to an in-memory message, from the
`data.map` body of `getChatMessages`: a null `source_info` yields no
`sourceInfo`; otherwise `sourceDocuments` defaults to the empty list when
absent, and each of the three string fields defaults to the empty string
when absent. -/
def rowToChatMessage (row : MessageRow) : ChatMessage :=
  { id := row.id
    text := row.text
    sender := row.sender
    timestamp := row.timestamp
    sourceInfo := row.source_info.map fun si =>
      { sourceDocuments := si.sourceDocuments.getD []
        pageNumber := some (si.pageNumber.getD "")
        sectionInfo := some (si.sectionInfo.getD "")
        paragraphInfo := some (si.paragraphInfo.getD "") } }

/-- Embedding of `deleteChatSession` from `chatHistoryUtils.ts`: first
delete all `chat_messages` rows whose `session_id` is `id`, returning
failure if that errors; only then delete the `chat_sessions` row itself,
returning failure if that errors; otherwise report success. -/
def deleteChatSession (env : DeleteEnv) (id : String) (st : Store) : StoreResult :=
  if env.messagesOk = false then
    { ok := false, store := st, trace := [DbOp.deleteMessages id] }
  else
    let st1 : Store :=
      { st with messages := st.messages.filter fun r => !(r.session_id == id) }
    if env.sessionOk = false then
      { ok := false, store := st1
        trace := [DbOp.deleteMessages id, DbOp.deleteSession id] }
    else
      { ok := true
        store := { st1 with sessions := st1.sessions.filter fun s => !(s.id == id) }
        trace := [DbOp.deleteMessages id, DbOp.deleteSession id] }

/-- Effect on the `chat_sessions` table of the `update` call at the top of
`saveChatMessages`: set `updated_at` to the current time on every row
whose id matches. -/
def bumpSessions (sessionId : String) (now : Nat) (rows : List SessionRow) : List SessionRow :=
  rows.map fun s => if s.id == sessionId then { s with updated_at := now } else s

/-- Embedding of `saveChatMessages` from `chatHistoryUtils.ts`: bump the
session row's `updated_at` (the source does not check this call's error),
delete the existing `chat_messages` rows for the session (error also
unchecked), return success immediately when `messages` is empty, and
otherwise insert the mapped rows, reporting failure only when that insert
errors. -/
def saveChatMessages (env : SaveEnv) (sessionId : String)
    (messages : List ChatMessage) (now : Nat) (st : Store) : StoreResult :=
  let st1 : Store :=
    if env.updateOk then
      { st with sessions := bumpSessions sessionId now st.sessions }
    else st
  let st2 : Store :=
    if env.deleteOk then
      { st1 with messages := st1.messages.filter fun r => !(r.session_id == sessionId) }
    else st1
  let t2 : List DbOp :=
    [DbOp.updateSessionTimestamp sessionId now, DbOp.deleteMessages sessionId]
  if messages.isEmpty then
    { ok := true, store := st2, trace := t2 }
  else
    let rows := messages.map (chatMessageToRow sessionId)
    if env.insertOk then
      { ok := true, store := { st2 with messages := st2.messages ++ rows }
        trace := t2 ++ [DbOp.insertMessages rows] }
    else
      { ok := false, store := st2, trace := t2 ++ [DbOp.insertMessages rows] }

/-- Ordering of message rows used by the select in `getChatMessages`
(`order by timestamp ascending`). -/
def rowLe (a b : MessageRow) : Prop :=
  a.timestamp ≤ b.timestamp

instance : DecidableRel rowLe := fun a b => Nat.decLe a.timestamp b.timestamp

instance : IsTotal MessageRow rowLe :=
  ⟨fun a b => Nat.le_total a.timestamp b.timestamp⟩

instance : IsTrans MessageRow rowLe :=
  ⟨fun _ _ _ hab hbc => Nat.le_trans hab hbc⟩

/-- Embedding of `getChatMessages` from `chatHistoryUtils.ts`: select the
`chat_messages` rows whose `session_id` matches, ordered ascending by
timestamp, and map each row back to a `ChatMessage`; a failed select
yields the empty list. -/
def getChatMessages (env : LoadEnv) (sessionId : String) (st : Store) : List ChatMessage :=
  if env.selectOk = false then []
  else
    ((st.messages.filter fun r => r.session_id == sessionId).insertionSort rowLe).map
      rowToChatMessage

/-- The test `needle` is a prefix of `hay`, over character lists. -/
def listStartsWith : List Char → List Char → Bool
  | [], _ => true
  | _ :: _, [] => false
  | a :: as, b :: bs => a == b && listStartsWith as bs

/-- The test `needle` occurs somewhere in `hay`, over character lists. -/
def listOccurs (needle : List Char) : List Char → Bool
  | [] => listStartsWith needle []
  | b :: bs => listStartsWith needle (b :: bs) || listOccurs needle bs

/-- Embedding of JavaScript `s.includes(sub)` on strings. -/
def jsIncludes (s sub : String) : Bool :=
  listOccurs sub.data s.data

/-- Embedding of JavaScript `o || d` for a possibly-absent string `o`: an
absent or empty string falls through to the default. -/
def jsOrStr (o : Option String) (d : String) : String :=
  match o with
  | none => d
  | some s => if s == "" then d else s

/-- Embedding of JavaScript `o || undefined` for a possibly-absent string:
an empty string is collapsed to absent. -/
def jsOrUndef (o : Option String) : Option String :=
  match o with
  | none => none
  | some s => if s == "" then none else some s

/-- Embedding of JavaScript truthiness for a possibly-absent string. -/
def jsTruthyStr (o : Option String) : Bool :=
  match o with
  | none => false
  | some s => !(s == "")

/-- Document handed to `generateResponse`, from the `DocumentFile`
interface in `pdfUtils.ts` (only the fields `generateResponse` reads). -/
structure DocumentFile where
  id : String
  name : String
  content : String
deriving DecidableEq

/-- Error object returned by a failed `supabase.functions.invoke` call;
its `message` may be absent. -/
structure InvokeErr where
  message : Option String
deriving DecidableEq

/-- JSON payload returned by the `generate-ai-response` edge function;
every field may be absent. -/
structure AiPayload where
  error : Option String
  details : Option String
  text : Option String
  sourceDocuments : Option (List String)
  pageNumber : Option String
  sectionInfo : Option String
  paragraphInfo : Option String
deriving DecidableEq

/-- Outcome of the external `supabase.functions.invoke` call:
either the promise rejected (caught by the surrounding `catch`), or it
resolved to an `error` slot and a `data` slot, each possibly null. -/
inductive InvokeOutcome where
  | thrown
  | result (error : Option InvokeErr) (data : Option AiPayload)
deriving DecidableEq

/-- Result of `generateResponse`: the bot message it returns together with
whether the external edge function was invoked. -/
structure GenResult where
  message : ChatMessage
  networkCalled : Bool
deriving DecidableEq

/-- Fixed reply used when no documents are uploaded. -/
def emptyDocsMsg : String :=
  "Please upload some PDF documents first so I can answer your questions."

/-- Fixed reply for quota-exhaustion failures. -/
def quotaMsg : String :=
  "I\x27m sorry, but your OpenAI API quota has been exceeded. Please check your OpenAI account billing details at https://platform.openai.com/account/billing."

/-- Fixed reply when the API key is missing. -/
def apiKeyMsg : String :=
  "The OpenAI API key is not configured. Please add your OpenAI API key to continue using this feature."

/-- Reply for an unclassified transport failure, embedding the error. -/
def transportErrText (errorMessage : String) : String :=
  "I\x27m having trouble connecting to the AI service. Error: " ++ errorMessage ++ ". Please try again in a moment."

/-- Fixed reply when the invoke resolved with no data. -/
def noDataMsg : String :=
  "No response received from the AI service. Please try again."

/-- Reply for an unclassified error payload, embedding the raw error. -/
def payloadErrText (e details : String) : String :=
  "I encountered an error while processing your question: " ++ e ++ ". " ++ details

/-- Fixed reply when the payload has no usable `text` field. -/
def invalidFormatMsg : String :=
  "I received an invalid response format. Please try again."

/-- Fixed reply produced by the surrounding `catch` handler. -/
def caughtErrMsg : String :=
  "I\x27m sorry, but I couldn\x27t generate a response at this time. Please try again in a few moments."

/-- Embedding of `generateResponse` from `chatUtils.ts` (the variant
returning a `ChatMessage`).  The nondeterministic message id and
`Date.now()` are passed in as `newId` and `now`; the outcome of the
external call is passed in as `outcome`. -/
def generateResponse (question : String) (documents : List DocumentFile)
    (outcome : InvokeOutcome) (newId : String) (now : Nat) : GenResult :=
  if documents.isEmpty then
    { message := { id := newId, text := emptyDocsMsg, sender := Sender.bot
                   timestamp := now, sourceInfo := none }
      networkCalled := false }
  else
    match outcome with
    | InvokeOutcome.thrown =>
      { message := { id := newId, text := caughtErrMsg, sender := Sender.bot
                     timestamp := now, sourceInfo := none }
        networkCalled := true }
    | InvokeOutcome.result err data =>
      match err with
      | some e =>
        let errorMessage := jsOrStr e.message "Unknown error"
        if jsIncludes errorMessage "quota" || jsIncludes errorMessage "429"
            || jsIncludes errorMessage "insufficient_quota" then
          { message := { id := newId, text := quotaMsg, sender := Sender.bot
                         timestamp := now, sourceInfo := none }
            networkCalled := true }
        else if jsIncludes errorMessage "OpenAI API key is not configured" then
          { message := { id := newId, text := apiKeyMsg, sender := Sender.bot
                         timestamp := now, sourceInfo := none }
            networkCalled := true }
        else
          { message := { id := newId, text := transportErrText errorMessage
                         sender := Sender.bot, timestamp := now, sourceInfo := none }
            networkCalled := true }
      | none =>
        match data with
        | none =>
          { message := { id := newId, text := noDataMsg, sender := Sender.bot
                         timestamp := now, sourceInfo := none }
            networkCalled := true }
        | some d =>
          if jsTruthyStr d.error then
            let e := d.error.getD ""
            if jsIncludes e "quota" || jsIncludes e "insufficient_quota" then
              { message := { id := newId, text := quotaMsg, sender := Sender.bot
                             timestamp := now, sourceInfo := none }
                networkCalled := true }
            else
              { message := { id := newId
                             text := payloadErrText e (jsOrStr d.details "")
                             sender := Sender.bot, timestamp := now, sourceInfo := none }
                networkCalled := true }
          else if !(jsTruthyStr d.text) then
            { message := { id := newId, text := invalidFormatMsg, sender := Sender.bot
                           timestamp := now, sourceInfo := none }
              networkCalled := true }
          else
            { message := { id := newId, text := d.text.getD "", sender := Sender.bot
                           timestamp := now
                           sourceInfo := some
                             { sourceDocuments := d.sourceDocuments.getD []
                               pageNumber := jsOrUndef d.pageNumber
                               sectionInfo := jsOrUndef d.sectionInfo
                               paragraphInfo := jsOrUndef d.paragraphInfo } }
              networkCalled := true }

/-- Embedding of the default-title computation in `handleSendMessage`
(`Index.tsx`): a question longer than 30 characters is cut to its first 30
characters followed by an ellipsis, shorter questions are used verbatim.
JavaScript `text.substring(0, 30)` is embedded as taking the first 30
characters of the string. -/
def defaultSessionTitle (text : String) : String :=
  if text.length > 30 then String.mk (text.data.take 30) ++ "..." else text

/-- Normalization applied to a message by a save/load round trip: omitted
optional citation subfields come back as empty values, everything else is
kept. -/
def normalizeMessage (m : ChatMessage) : ChatMessage :=
  { m with sourceInfo := m.sourceInfo.map fun si =>
      { sourceDocuments := si.sourceDocuments
        pageNumber := some (si.pageNumber.getD "")
        sectionInfo := some (si.sectionInfo.getD "")
        paragraphInfo := some (si.paragraphInfo.getD "") } }

/-- Test for the session-timestamp update among issued operations. -/
def isUpdateOp : DbOp → Bool
  | DbOp.updateSessionTimestamp _ _ => true
  | _ => false

/-- Test for the message-insert among issued operations. -/
def isInsertOp : DbOp → Bool
  | DbOp.insertMessages _ => true
  | _ => false

/-- Sample document used to instantiate universally quantified results. -/
def doc0 : DocumentFile :=
  { id := "d1", name := "A.pdf", content := "insurance policy text" }

/-!  Helper lemmas shared by the claim theorems.  -/

lemma filter_filter_not {α : Type} (p : α → Bool) (l : List α) :
    (l.filter fun a => !(p a)).filter p = [] := by
  induction l with
  | nil => rfl
  | cons a t ih => cases h : p a <;> simp [List.filter_cons, h, ih]

lemma rowToChatMessage_chatMessageToRow (sessionId : String) (m : ChatMessage) :
    rowToChatMessage (chatMessageToRow sessionId m) = normalizeMessage m := by
  cases m with
  | mk id text sender timestamp sourceInfo =>
    cases sourceInfo <;> rfl

lemma saveChatMessages_trace_eq (env : SaveEnv) (sessionId : String)
    (messages : List ChatMessage) (now : Nat) (st : Store) :
    (saveChatMessages env sessionId messages now st).trace
      = [DbOp.updateSessionTimestamp sessionId now, DbOp.deleteMessages sessionId]
          ++ (if messages.isEmpty then []
              else [DbOp.insertMessages (messages.map (chatMessageToRow sessionId))]) := by
  cases messages with
  | nil => cases env with
    | mk u d i => cases u <;> cases d <;> cases i <;> rfl
  | cons a t => cases env with
    | mk u d i => cases u <;> cases d <;> cases i <;> rfl

lemma saveChatMessages_allOk_store (sessionId : String)
    (messages : List ChatMessage) (now : Nat) (st : Store) :
    (saveChatMessages ⟨true, true, true⟩ sessionId messages now st).store
      = { sessions := bumpSessions sessionId now st.sessions
          messages := (st.messages.filter fun r => !(r.session_id == sessionId))
                        ++ messages.map (chatMessageToRow sessionId) } := by
  cases messages with
  | nil => simp [saveChatMessages]
  | cons a t => rfl

lemma saveChatMessages_allOk_ok (sessionId : String)
    (messages : List ChatMessage) (now : Nat) (st : Store) :
    (saveChatMessages ⟨true, true, true⟩ sessionId messages now st).ok = true := by
  cases messages <;> rfl

/-- C2: for every session id, `deleteChatSession` issues the delete of the
session's messages first and the delete of the session row only afterwards;
when the message deletion fails, it reports failure, leaves the whole store
(in particular the session row) unchanged, and never issues the session
delete; when both deletes succeed it reports success and no message of the
session remains. -/
theorem deleteChatSession_messages_first (env : DeleteEnv) (id : String) (st : Store) :
    (env.messagesOk = false →
      (deleteChatSession env id st).ok = false ∧
      (deleteChatSession env id st).store = st ∧
      (deleteChatSession env id st).trace = [DbOp.deleteMessages id]) ∧
    (env.messagesOk = true →
      (deleteChatSession env id st).trace
        = [DbOp.deleteMessages id, DbOp.deleteSession id] ∧
      (deleteChatSession env id st).store.messages.filter
        (fun r => r.session_id == id) = []) ∧
    (env.messagesOk = true → env.sessionOk = true →
      (deleteChatSession env id st).ok = true) := by
  cases env with
  | mk mOk sOk =>
    refine ⟨fun hm => ?_, fun hm => ?_, fun hm hs => ?_⟩
    · cases hm
      exact ⟨rfl, rfl, rfl⟩
    · cases hm
      cases sOk
      · exact ⟨rfl, filter_filter_not _ _⟩
      · exact ⟨rfl, filter_filter_not _ _⟩
    · cases hm
      cases hs
      rfl

/-- Witness instantiating `deleteChatSession_messages_first` at concrete
inputs, one per hypothesis combination. -/
theorem deleteChatSession_messages_first_witness :
    ((deleteChatSession ⟨false, true⟩ "s" ⟨[⟨"s", "t", [], 0, 0⟩], []⟩).ok = false ∧
      (deleteChatSession ⟨false, true⟩ "s" ⟨[⟨"s", "t", [], 0, 0⟩], []⟩).store
        = ⟨[⟨"s", "t", [], 0, 0⟩], []⟩ ∧
      (deleteChatSession ⟨false, true⟩ "s" ⟨[⟨"s", "t", [], 0, 0⟩], []⟩).trace
        = [DbOp.deleteMessages "s"]) ∧
    ((deleteChatSession ⟨true, true⟩ "s" ⟨[⟨"s", "t", [], 0, 0⟩], []⟩).trace
        = [DbOp.deleteMessages "s", DbOp.deleteSession "s"] ∧
      (deleteChatSession ⟨true, true⟩ "s" ⟨[⟨"s", "t", [], 0, 0⟩], []⟩).store.messages.filter
        (fun r => r.session_id == "s") = []) ∧
    (deleteChatSession ⟨true, true⟩ "s" ⟨[⟨"s", "t", [], 0, 0⟩], []⟩).ok = true :=
  ⟨(deleteChatSession_messages_first ⟨false, true⟩ "s" ⟨[⟨"s", "t", [], 0, 0⟩], []⟩).1 rfl,
   (deleteChatSession_messages_first ⟨true, true⟩ "s" ⟨[⟨"s", "t", [], 0, 0⟩], []⟩).2.1 rfl,
   (deleteChatSession_messages_first ⟨true, true⟩ "s" ⟨[⟨"s", "t", [], 0, 0⟩], []⟩).2.2 rfl rfl⟩

/-- C3: after a `deleteChatSession` call that reports success, loading the
session's messages yields the empty sequence, whatever the outcome of the
load's own select. -/
theorem getChatMessages_after_deleteChatSession (denv : DeleteEnv) (lenv : LoadEnv)
    (id : String) (st : Store)
    (h : (deleteChatSession denv id st).ok = true) :
    getChatMessages lenv id (deleteChatSession denv id st).store = [] := by
  cases denv with
  | mk mOk sOk =>
    cases mOk
    · exact absurd h (by simp [deleteChatSession])
    · cases sOk
      · exact absurd h (by simp [deleteChatSession])
      · cases lenv with
        | mk selOk =>
          cases selOk
          · rfl
          · show ((List.filter _ (List.filter _ st.messages)).insertionSort rowLe).map
              rowToChatMessage = []
            rw [filter_filter_not]
            rfl

/-- Witness instantiating `getChatMessages_after_deleteChatSession` at a
concrete store holding one session with one message. -/
theorem getChatMessages_after_deleteChatSession_witness :
    getChatMessages ⟨true⟩ "s"
      (deleteChatSession ⟨true, true⟩ "s"
        ⟨[⟨"s", "t", [], 0, 0⟩], [⟨"m1", "s", "hi", Sender.user, 1, none⟩]⟩).store = [] :=
  getChatMessages_after_deleteChatSession ⟨true, true⟩ ⟨true⟩ "s"
    ⟨[⟨"s", "t", [], 0, 0⟩], [⟨"m1", "s", "hi", Sender.user, 1, none⟩]⟩ (by decide)

/-- C4 counterexample: on a concrete save of one message, the issued
operation sequence is the timestamp update, then the delete of the old
log, then the insert of the new messages — so the `updated_at` update is
not issued after the replacement, contradicting the claimed order. -/
theorem saveChatMessages_updates_before_replace :
    (saveChatMessages ⟨true, true, true⟩ "s" [⟨"m1", "hi", Sender.user, 1, none⟩] 100
        ⟨[⟨"s", "t", [], 0, 0⟩], []⟩).trace
      = [DbOp.updateSessionTimestamp "s" 100, DbOp.deleteMessages "s",
          DbOp.insertMessages [⟨"m1", "s", "hi", Sender.user, 1, none⟩]] ∧
    ¬ ((saveChatMessages ⟨true, true, true⟩ "s" [⟨"m1", "hi", Sender.user, 1, none⟩] 100
          ⟨[⟨"s", "t", [], 0, 0⟩], []⟩).trace.findIdx isInsertOp
        < (saveChatMessages ⟨true, true, true⟩ "s" [⟨"m1", "hi", Sender.user, 1, none⟩] 100
            ⟨[⟨"s", "t", [], 0, 0⟩], []⟩).trace.findIdx isUpdateOp) := by
  decide

/-- C4 (amended): for every environment and input, `saveChatMessages`
issues the `updated_at` bump first, then the delete of the old log, and
finally — only when the message list is non-empty — the insert of the
mapped rows. -/
theorem saveChatMessages_trace_order (env : SaveEnv) (sessionId : String)
    (messages : List ChatMessage) (now : Nat) (st : Store) :
    (saveChatMessages env sessionId messages now st).trace
      = [DbOp.updateSessionTimestamp sessionId now, DbOp.deleteMessages sessionId]
          ++ (if messages.isEmpty then []
              else [DbOp.insertMessages (messages.map (chatMessageToRow sessionId))]) :=
  saveChatMessages_trace_eq env sessionId messages now st

/-- C10: `saveChatMessages` issues the `updated_at` bump and the delete of
the old log before any insert, for every environment; when the insert
fails the call reports failure even though the session timestamps have
been bumped and the old log destroyed; and the bump and the delete also
happen when the message list is empty. -/
theorem saveChatMessages_unconditional_mutation (sessionId : String) (now : Nat) :
    (∀ (env : SaveEnv) (messages : List ChatMessage) (st : Store),
      (saveChatMessages env sessionId messages now st).trace
        = [DbOp.updateSessionTimestamp sessionId now, DbOp.deleteMessages sessionId]
            ++ (if messages.isEmpty then []
                else [DbOp.insertMessages (messages.map (chatMessageToRow sessionId))])) ∧
    (∀ (messages : List ChatMessage) (st : Store),
      messages ≠ [] →
      (saveChatMessages ⟨true, true, false⟩ sessionId messages now st).ok = false ∧
      (saveChatMessages ⟨true, true, false⟩ sessionId messages now st).store.sessions
        = bumpSessions sessionId now st.sessions ∧
      (saveChatMessages ⟨true, true, false⟩ sessionId messages now st).store.messages
        = st.messages.filter fun r => !(r.session_id == sessionId)) ∧
    (∀ (st : Store),
      (saveChatMessages ⟨true, true, true⟩ sessionId [] now st).ok = true ∧
      (saveChatMessages ⟨true, true, true⟩ sessionId [] now st).store.sessions
        = bumpSessions sessionId now st.sessions ∧
      (saveChatMessages ⟨true, true, true⟩ sessionId [] now st).store.messages
        = st.messages.filter fun r => !(r.session_id == sessionId)) := by
  refine ⟨fun env messages st => saveChatMessages_trace_eq env sessionId messages now st,
    fun messages st hne => ?_, fun st => ⟨rfl, rfl, rfl⟩⟩
  cases messages with
  | nil => exact absurd rfl hne
  | cons a t => exact ⟨rfl, rfl, rfl⟩

/-- Witness instantiating `saveChatMessages_unconditional_mutation` at a
concrete non-empty message list and store. -/
theorem saveChatMessages_unconditional_mutation_witness :
    (saveChatMessages ⟨true, true, false⟩ "s" [⟨"m1", "hi", Sender.user, 1, none⟩] 100
        ⟨[⟨"s", "t", [], 0, 0⟩], [⟨"old", "s", "old", Sender.bot, 5, none⟩]⟩).ok = false ∧
    (saveChatMessages ⟨true, true, false⟩ "s" [⟨"m1", "hi", Sender.user, 1, none⟩] 100
        ⟨[⟨"s", "t", [], 0, 0⟩], [⟨"old", "s", "old", Sender.bot, 5, none⟩]⟩).store.sessions
      = bumpSessions "s" 100 [⟨"s", "t", [], 0, 0⟩] ∧
    (saveChatMessages ⟨true, true, false⟩ "s" [⟨"m1", "hi", Sender.user, 1, none⟩] 100
        ⟨[⟨"s", "t", [], 0, 0⟩], [⟨"old", "s", "old", Sender.bot, 5, none⟩]⟩).store.messages
      = [⟨"old", "s", "old", Sender.bot, 5, none⟩].filter fun r => !(r.session_id == "s") :=
  (saveChatMessages_unconditional_mutation "s" 100).2.1
    [⟨"m1", "hi", Sender.user, 1, none⟩]
    ⟨[⟨"s", "t", [], 0, 0⟩], [⟨"old", "s", "old", Sender.bot, 5, none⟩]⟩
    (by decide)

/-- C1 counterexample: the source ignores the error of the delete step
inside `saveChatMessages`, so when that delete fails and the insert
succeeds the call reports success while a stale message survives: loading
afterwards returns two messages instead of the single saved one, which is
not `M` reordered by timestamp (for this singleton `M` any reordering is
`M` itself). -/
theorem saveChatMessages_success_despite_failed_delete :
    (saveChatMessages ⟨true, false, true⟩ "s" [⟨"m2", "hello", Sender.user, 10, none⟩] 100
        ⟨[⟨"s", "t", [], 0, 0⟩], [⟨"old", "s", "old text", Sender.bot, 5, none⟩]⟩).ok = true ∧
    ¬ (getChatMessages ⟨true⟩ "s"
        (saveChatMessages ⟨true, false, true⟩ "s" [⟨"m2", "hello", Sender.user, 10, none⟩] 100
          ⟨[⟨"s", "t", [], 0, 0⟩], [⟨"old", "s", "old text", Sender.bot, 5, none⟩]⟩).store
        = [⟨"m2", "hello", Sender.user, 10, none⟩]) := by
  decide

/-- C1 (amended): when the three store operations inside `saveChatMessages`
and the subsequent select all succeed, the call reports success and
`getChatMessages` returns exactly the saved messages — with omitted
optional citation subfields defaulted to empty values — as a permutation
of `M` that is sorted ascending by timestamp. -/
theorem getChatMessages_after_saveChatMessages_allOk (sessionId : String)
    (M : List ChatMessage) (now : Nat) (st : Store) :
    (saveChatMessages ⟨true, true, true⟩ sessionId M now st).ok = true ∧
    (getChatMessages ⟨true⟩ sessionId
        (saveChatMessages ⟨true, true, true⟩ sessionId M now st).store).Perm
      (M.map normalizeMessage) ∧
    List.Sorted (fun a b : ChatMessage => a.timestamp ≤ b.timestamp)
      (getChatMessages ⟨true⟩ sessionId
        (saveChatMessages ⟨true, true, true⟩ sessionId M now st).store) := by
  have hload : getChatMessages ⟨true⟩ sessionId
      (saveChatMessages ⟨true, true, true⟩ sessionId M now st).store
      = ((M.map (chatMessageToRow sessionId)).insertionSort rowLe).map rowToChatMessage := by
    rw [saveChatMessages_allOk_store]
    show ((List.filter _ (_ ++ _)).insertionSort rowLe).map rowToChatMessage = _
    rw [List.filter_append, filter_filter_not, List.nil_append, List.filter_eq_self.mpr]
    intro a ha
    rcases List.mem_map.mp ha with ⟨m, _, rfl⟩
    simp [chatMessageToRow]
  refine ⟨saveChatMessages_allOk_ok sessionId M now st, ?_, ?_⟩
  · rw [hload]
    have hperm := (List.perm_insertionSort rowLe (M.map (chatMessageToRow sessionId))).map
      rowToChatMessage
    refine hperm.trans ?_
    rw [List.map_map]
    have hcomp : rowToChatMessage ∘ chatMessageToRow sessionId = normalizeMessage :=
      funext (rowToChatMessage_chatMessageToRow sessionId)
    rw [hcomp]
  · rw [hload]
    exact (List.sorted_insertionSort rowLe (M.map (chatMessageToRow sessionId))).map
      rowToChatMessage (fun _ _ h => h)

/-- C5: for every question, document list, outcome of the external call
(rejected promise, missing data, error payload, payload without a usable
`text`, or success) and every generated id and time, `generateResponse`
returns a message whose sender is `bot`; being a total function of the
outcome, it never propagates a failure to its caller. -/
theorem generateResponse_sender_bot (question : String) (documents : List DocumentFile)
    (outcome : InvokeOutcome) (newId : String) (now : Nat) :
    (generateResponse question documents outcome newId now).message.sender = Sender.bot := by
  unfold generateResponse
  by_cases hd : documents.isEmpty
  · simp [hd]
  · simp only [hd, if_false, Bool.false_eq_true]
    cases outcome with
    | thrown => rfl
    | result err data =>
      cases err with
      | some e =>
        dsimp only
        split_ifs <;> rfl
      | none =>
        cases data with
        | none => rfl
        | some d =>
          dsimp only
          split_ifs <;> rfl

/-- C6: with an empty document list, `generateResponse` returns the fixed
prompt-to-upload bot message for any question, outcome, id and time, and
does not invoke the external edge function. -/
theorem generateResponse_empty_documents (question : String)
    (outcome : InvokeOutcome) (newId : String) (now : Nat) :
    generateResponse question [] outcome newId now =
      { message := { id := newId
                     text := "Please upload some PDF documents first so I can answer your questions."
                     sender := Sender.bot, timestamp := now, sourceInfo := none }
        networkCalled := false } :=
  rfl

/-- C7 counterexample: a payload-level failure whose error mentions only
HTTP 429 — which the claim counts as indicating quota exhaustion — is not
routed to the quota branch: the returned text embeds the raw error string
and mentions neither quota nor billing. -/
theorem generateResponse_payload_429_raw_error :
    jsIncludes "Request failed with status 429" "429" = true ∧
    (generateResponse "q" [doc0]
        (InvokeOutcome.result none
          (some ⟨some "Request failed with status 429", none, none, none, none, none, none⟩))
        "id0" 0).message.text
      = payloadErrText "Request failed with status 429" "" ∧
    jsIncludes (payloadErrText "Request failed with status 429" "") "quota" = false ∧
    jsIncludes (payloadErrText "Request failed with status 429" "") "billing" = false ∧
    jsIncludes (payloadErrText "Request failed with status 429" "")
      "Request failed with status 429" = true := by
  decide

/-- C7 (amended): a transport-level failure whose message mentions quota,
429 or insufficient_quota, and a payload-level failure whose error mentions
quota or insufficient_quota (but not one mentioning only 429), yield the
fixed quota message, which mentions quota and billing and does not depend
on the raw error. -/
theorem generateResponse_quota_branches (question : String)
    (documents : List DocumentFile) (newId : String) (now : Nat) :
    (∀ (e : InvokeErr) (data : Option AiPayload) (m : String),
      documents.isEmpty = false → e.message = some m → (m == "") = false →
      (jsIncludes m "quota" = true ∨ jsIncludes m "429" = true ∨
        jsIncludes m "insufficient_quota" = true) →
      (generateResponse question documents (InvokeOutcome.result (some e) data)
          newId now).message.text = quotaMsg) ∧
    (∀ (d : AiPayload) (er : String),
      documents.isEmpty = false → d.error = some er → (er == "") = false →
      (jsIncludes er "quota" = true ∨ jsIncludes er "insufficient_quota" = true) →
      (generateResponse question documents (InvokeOutcome.result none (some d))
          newId now).message.text = quotaMsg) ∧
    jsIncludes quotaMsg "quota" = true ∧
    jsIncludes quotaMsg "billing" = true := by
  refine ⟨fun e data m hd hm hne hq => ?_, fun d er hd he hne hq => ?_,
    by decide, by decide⟩
  · have hmsg : jsOrStr e.message "Unknown error" = m := by
      rw [hm]
      simp [jsOrStr, hne]
    have hcond : (jsIncludes m "quota" || jsIncludes m "429"
        || jsIncludes m "insufficient_quota") = true := by
      rcases hq with h | h | h <;> simp [h]
    unfold generateResponse
    simp [hd, hmsg, hcond]
  · have htruthy : jsTruthyStr d.error = true := by
      rw [he]
      simp [jsTruthyStr, hne]
    have hgetd : d.error.getD "" = er := by rw [he]; rfl
    have hcond : (jsIncludes er "quota" || jsIncludes er "insufficient_quota") = true := by
      rcases hq with h | h <;> simp [h]
    unfold generateResponse
    simp [hd, htruthy, hgetd, hcond]

/-- Witness instantiating `generateResponse_quota_branches` at a concrete
transport failure mentioning insufficient_quota and a concrete payload
failure mentioning quota. -/
theorem generateResponse_quota_branches_witness :
    (generateResponse "q" [doc0]
        (InvokeOutcome.result (some ⟨some "insufficient_quota"⟩) none) "id0" 0).message.text
      = quotaMsg ∧
    (generateResponse "q" [doc0]
        (InvokeOutcome.result none
          (some ⟨some "You exceeded your current quota", none, none, none, none, none, none⟩))
        "id0" 0).message.text
      = quotaMsg :=
  ⟨(generateResponse_quota_branches "q" [doc0] "id0" 0).1
      ⟨some "insufficient_quota"⟩ none "insufficient_quota" rfl rfl (by decide)
      (Or.inr (Or.inr (by decide))),
   (generateResponse_quota_branches "q" [doc0] "id0" 0).2.1
      ⟨some "You exceeded your current quota", none, none, none, none, none, none⟩
      "You exceeded your current quota" rfl rfl (by decide)
      (Or.inl (by decide))⟩

/-- C8: saving a message whose citation has `sourceDocuments = ["A.pdf"]`
and `pageNumber = "3"` and reloading it yields those same values with the
omitted section and paragraph fields defaulted to the empty string; and in
general every stored row with a citation object reloads with each absent
optional field replaced by its empty default rather than being dropped. -/
theorem sourceInfo_roundtrip_defaults :
    (∀ (row : MessageRow) (si : StoredSourceInfo),
      row.source_info = some si →
      (rowToChatMessage row).sourceInfo
        = some { sourceDocuments := si.sourceDocuments.getD []
                 pageNumber := some (si.pageNumber.getD "")
                 sectionInfo := some (si.sectionInfo.getD "")
                 paragraphInfo := some (si.paragraphInfo.getD "") }) ∧
    getChatMessages ⟨true⟩ "s"
        (saveChatMessages ⟨true, true, true⟩ "s"
          [⟨"m1", "answer", Sender.bot, 50, some ⟨["A.pdf"], some "3", none, none⟩⟩] 100
          ⟨[⟨"s", "t", [], 0, 0⟩], []⟩).store
      = [⟨"m1", "answer", Sender.bot, 50, some ⟨["A.pdf"], some "3", some "", some ""⟩⟩] := by
  refine ⟨fun row si h => ?_, by decide⟩
  simp [rowToChatMessage, h]

/-- Witness instantiating the universal part of
`sourceInfo_roundtrip_defaults` at a concrete row whose citation object
has every optional field absent. -/
theorem sourceInfo_roundtrip_defaults_witness :
    (rowToChatMessage ⟨"m9", "s", "txt", Sender.bot, 7, some ⟨none, none, none, none⟩⟩).sourceInfo
      = some { sourceDocuments := ([] : List String)
               pageNumber := some ""
               sectionInfo := some ""
               paragraphInfo := some "" } :=
  sourceInfo_roundtrip_defaults.1
    ⟨"m9", "s", "txt", Sender.bot, 7, some ⟨none, none, none, none⟩⟩
    ⟨none, none, none, none⟩ rfl

/-- C9: the default session title computed by `handleSendMessage` equals
the question itself when the question has at most 30 characters and the
first 30 characters followed by an ellipsis otherwise, and its length
never exceeds 33 characters. -/
theorem defaultSessionTitle_spec (text : String) :
    defaultSessionTitle text
      = (if text.length ≤ 30 then text else String.mk (text.data.take 30) ++ "...") ∧
    (defaultSessionTitle text).length ≤ 33 := by
  rcases Nat.lt_or_ge 30 text.length with h | h
  · have h1 : ¬ (text.length ≤ 30) := Nat.not_le.mpr h
    constructor
    · rw [defaultSessionTitle, if_pos h, if_neg h1]
    · rw [defaultSessionTitle, if_pos h, String.length_append]
      have htake : (String.mk (text.data.take 30)).length = min 30 text.data.length := by
        show (text.data.take 30).length = min 30 text.data.length
        exact List.length_take 30 text.data
      rw [htake]
      have h3 : ("..." : String).length = 3 := rfl
      have : min 30 text.data.length ≤ 30 := Nat.min_le_left _ _
      omega
  · have h1 : ¬ (text.length > 30) := Nat.not_lt.mpr h
    constructor
    · rw [defaultSessionTitle, if_neg h1, if_pos h]
    · rw [defaultSessionTitle, if_neg h1]
      omega

end TextWiseQuery
